import Mathlib

/-!
Verification of the pure logic of `weather_streamlit.py` (Weather-App).

The deterministic units of the app are embedded shallowly:
* the WMO weather-code table and its fallback lookup,
* `wind_dir_label` (Python `round` is banker's rounding, modelled by `pyRound`),
* the animation-family classification and the animation-element generator
  `get_weather_animation_html` (elements are modelled structurally, one
  `VisualElement` per emitted `<div>`, in emission order),
* `search_cities` / `location_label` with the geocoding collaborator
  abstracted as a fallible function,
* the forecast precipitation badge.

Python's `random.Random(seed)` is modelled as an abstract family of
unit-interval streams indexed by the integer seed: each call to
`randint` / `uniform` / `choice` consumes exactly one stream element and
maps it into the requested range.  This keeps every repository-level fact
(the seed formula, the number of draws, their order, the range mapping and
the decimal rounding) while treating the Mersenne-Twister internals of the
Python standard library as opaque.  Each drawing operation also records a
`Draw` descriptor, so the exact request trace of a generation run is
available for order-of-draws theorems.
-/

namespace WeatherApp

/-- The `WMO_CODES` dictionary of the source, as an association list in
source order: weather code ↦ (label, icon). -/
def WMO_CODES : List (Int × (String × String)) :=
  [ (0,  ("Clear sky",            "☀️")),
    (1,  ("Mainly clear",         "🌤️")),
    (2,  ("Partly cloudy",        "⛅")),
    (3,  ("Overcast",             "☁️")),
    (45, ("Foggy",                "🌫️")),
    (48, ("Rime fog",             "🌫️")),
    (51, ("Light drizzle",        "🌦️")),
    (53, ("Moderate drizzle",     "🌦️")),
    (55, ("Dense drizzle",        "🌧️")),
    (61, ("Slight rain",          "🌧️")),
    (63, ("Moderate rain",        "🌧️")),
    (65, ("Heavy rain",           "🌧️")),
    (71, ("Slight snowfall",      "❄️")),
    (73, ("Moderate snowfall",    "❄️")),
    (75, ("Heavy snowfall",       "❄️")),
    (77, ("Snow grains",          "🌨️")),
    (80, ("Slight showers",       "🌦️")),
    (81, ("Moderate showers",     "🌦️")),
    (82, ("Violent showers",      "⛈️")),
    (85, ("Slight snow showers",  "🌨️")),
    (86, ("Heavy snow showers",   "🌨️")),
    (95, ("Thunderstorm",         "⛈️")),
    (96, ("Thunderstorm + hail",  "⛈️")),
    (99, ("Thunderstorm + hail",  "⛈️")) ]

/-- `WMO_CODES.get(code, ("Unknown", "❓"))` of the source. -/
def resolveCondition (code : Int) : String × String :=
  (WMO_CODES.lookup code).getD ("Unknown", "❓")

/-- The 16-entry compass table `WIND_DIRS` of the source. -/
def WIND_DIRS : List String :=
  ["N","NNE","NE","ENE","E","ESE","SE","SSE",
   "S","SSW","SW","WSW","W","WNW","NW","NNW"]

/-- Python's built-in `round` on an exact rational: round half to even. -/
def pyRound (q : ℚ) : Int :=
  let f := ⌊q⌋
  let r := q - f
  if r < 1/2 then f
  else if 1/2 < r then f + 1
  else if f % 2 = 0 then f else f + 1

/-- `wind_dir_label(degrees)` of the source:
`WIND_DIRS[round(degrees / 22.5) % 16]` (Python `%` on a positive modulus
is `Int.emod` restricted to `[0, 16)`). -/
def windDirLabel (degrees : ℚ) : String :=
  WIND_DIRS.getD (pyRound (degrees / 22.5) % 16).toNat ""

/-- The animation families the `anim` string of
`get_weather_animation_html` ranges over. -/
inductive AnimFamily where
  | thunder | snow | rain | fog | overcast | partlyCloudy | clearDay | clearNight
  deriving DecidableEq, Repr

/-- The `if`/`elif` chain of `get_weather_animation_html` selecting `anim`
(first match wins), exactly in source order. -/
def classifyFamily (code : Int) (isDay : Bool) : AnimFamily :=
  if code ∈ ([95, 96, 99] : List Int) then .thunder
  else if code ∈ ([71, 73, 75, 77, 85, 86] : List Int) then .snow
  else if code ∈ ([51, 53, 55, 61, 63, 65, 80, 81, 82] : List Int) then .rain
  else if code ∈ ([45, 48] : List Int) then .fog
  else if code = 3 then .overcast
  else if code ∈ ([1, 2] : List Int) then .partlyCloudy
  else if isDay then .clearDay else .clearNight

/-- The spec's priority table for family classification, written from the
spec's own rule list (section 4.2, rules 1–7) for comparison against the
source's `classifyFamily`. -/
def classifyFamilySpec (code : Int) (isDay : Bool) : AnimFamily :=
  if code ∈ ([95, 96, 99] : List Int) then .thunder
  else if code ∈ ([71, 73, 75, 77, 85, 86] : List Int) then .snow
  else if code ∈ ([51, 53, 55, 61, 63, 65, 80, 81, 82] : List Int) then .rain
  else if code ∈ ([45, 48] : List Int) then .fog
  else if code = 3 then .overcast
  else if code ∈ ([1, 2] : List Int) then .partlyCloudy
  else if isDay then .clearDay else .clearNight

/-- Descriptor of one request made to the pseudo-random generator. -/
inductive Draw where
  | dRandint (lo hi : Int)
  | dUniform (lo hi : ℚ)
  | dChoice (n : Nat)
  deriving DecidableEq, Repr

/-- State of one generation run: how many stream elements have been
consumed, plus the trace of requests made so far (in order). -/
structure RState where
  idx : Nat
  trace : List Draw
  deriving DecidableEq, Repr

/-- Consume one element of the unit-interval stream `u`, recording the
request `d`. -/
def drawUnit (u : Nat → ℚ) (d : Draw) (s : RState) : ℚ × RState :=
  (u s.idx, ⟨s.idx + 1, s.trace ++ [d]⟩)

/-- `rng.randint(lo, hi)`: one draw, mapped to an integer of the inclusive
range `[lo, hi]`. -/
def pyRandint (u : Nat → ℚ) (lo hi : Int) (s : RState) : Int × RState :=
  let (x, s') := drawUnit u (.dRandint lo hi) s
  (lo + ⌊x * (hi - lo + 1)⌋, s')

/-- `rng.uniform(lo, hi)`: one draw, mapped affinely onto `[lo, hi]`. -/
def pyUniform (u : Nat → ℚ) (lo hi : ℚ) (s : RState) : ℚ × RState :=
  let (x, s') := drawUnit u (.dUniform lo hi) s
  (lo + (hi - lo) * x, s')

/-- `rng.choice(xs)`: one draw, mapped to an element of `xs`. -/
def pyChoice (u : Nat → ℚ) (xs : List String) (s : RState) : String × RState :=
  let (x, s') := drawUnit u (.dChoice xs.length) s
  (xs.getD (⌊x * xs.length⌋).toNat "", s')

/-- Python's `round(x, nd)` on an exact rational. -/
def roundTo (nd : Nat) (x : ℚ) : ℚ :=
  (pyRound (x * 10 ^ nd) : ℚ) / 10 ^ nd

/-- One decorative element of the overlay, in source emission order: one
constructor per emitted `<div>`, carrying exactly the attribute values the
source interpolates into it. -/
inductive VisualElement where
  | rainDrop (left h : Int) (d dur op : ℚ)
  | flash
  | snowflake (left : Int) (size d dur op : ℚ) (ch : String)
  | sunGlow
  | rayCW
  | rayCCW
  | star (top left : Int) (size d dur : ℚ)
  | cloud (top w d dur : Int) (op : ℚ)
  | fogBank (top h d dur : Int) (op : ℚ)
  deriving DecidableEq, Repr

/-- One iteration of the rain/thunder loop (lines 125–135 of the source). -/
def rainElem (u : Nat → ℚ) (s : RState) : VisualElement × RState :=
  let p1 := pyRandint u 0 100 s
  let p2 := pyRandint u 12 28 p1.2
  let p3 := pyUniform u 0 3 p2.2
  let p4 := pyUniform u 0.55 1.3 p3.2
  let p5 := pyUniform u 0.35 0.65 p4.2
  (.rainDrop p1.1 p2.1 (roundTo 2 p3.1) (roundTo 2 p4.1) (roundTo 2 p5.1), p5.2)

/-- The glyph list of the snow loop. -/
def snowGlyphs : List String := ["❄", "❅", "❆", "·", "•"]

/-- One iteration of the snow loop (lines 143–155). -/
def snowElem (u : Nat → ℚ) (s : RState) : VisualElement × RState :=
  let p1 := pyRandint u 0 100 s
  let p2 := pyUniform u 0.7 1.7 p1.2
  let p3 := pyUniform u 0 12 p2.2
  let p4 := pyUniform u 7 16 p3.2
  let p5 := pyUniform u 0.45 0.8 p4.2
  let p6 := pyChoice u snowGlyphs p5.2
  (.snowflake p1.1 (roundTo 1 p2.1) (roundTo 2 p3.1) (roundTo 2 p4.1) (roundTo 2 p5.1) p6.1, p6.2)

/-- One iteration of the clear-night star loop (lines 171–181). -/
def starElem (u : Nat → ℚ) (s : RState) : VisualElement × RState :=
  let p1 := pyRandint u 2 65 s
  let p2 := pyRandint u 0 100 p1.2
  let p3 := pyUniform u 0.18 0.45 p2.2
  let p4 := pyUniform u 0 6 p3.2
  let p5 := pyUniform u 2 5 p4.2
  (.star p1.1 p2.1 (roundTo 2 p3.1) (roundTo 2 p4.1) (roundTo 2 p5.1), p5.2)

/-- One iteration of the cloud loop (lines 186–196); `op` is the fixed
per-family opacity. -/
def cloudElem (u : Nat → ℚ) (op : ℚ) (s : RState) : VisualElement × RState :=
  let p1 := pyRandint u 3 40 s
  let p2 := pyRandint u 120 220 p1.2
  let p3 := pyRandint u 0 20 p2.2
  let p4 := pyRandint u 30 60 p3.2
  (.cloud p1.1 p2.1 p3.1 p4.1 op, p4.2)

/-- One iteration of the fog loop (lines 199–209). -/
def fogElem (u : Nat → ℚ) (s : RState) : VisualElement × RState :=
  let p1 := pyRandint u 5 85 s
  let p2 := pyRandint u 50 120 p1.2
  let p3 := pyRandint u 0 25 p2.2
  let p4 := pyRandint u 18 35 p3.2
  let p5 := pyUniform u 0.05 0.12 p4.2
  (.fogBank p1.1 p2.1 p3.1 p4.1 (roundTo 2 p5.1), p5.2)

/-- `for _ in range(n)` around an element generator, collecting the emitted
elements in order and threading the generator state. -/
def genLoop (gen : RState → VisualElement × RState) :
    Nat → RState → List VisualElement × RState
  | 0, s => ([], s)
  | n + 1, s =>
    let (e, s1) := gen s
    let (rest, s2) := genLoop gen n s1
    (e :: rest, s2)

/-- The body of `get_weather_animation_html` after seeding: branch on the
family and run the per-family loop, from a stream `u`. -/
def genFrom (u : Nat → ℚ) (code : Int) (isDay : Bool) :
    List VisualElement × RState :=
  let s0 : RState := ⟨0, []⟩
  match classifyFamily code isDay with
  | .rain =>
    genLoop (rainElem u) (if code ∈ ([65, 82] : List Int) then 55 else 30) s0
  | .thunder =>
    let p :=
      genLoop (rainElem u) (if code ∈ ([65, 82] : List Int) then 55 else 30) s0
    (p.1 ++ [.flash], p.2)
  | .snow => genLoop (snowElem u) 38 s0
  | .clearDay => ([.sunGlow, .rayCW, .rayCCW], s0)
  | .clearNight => genLoop (starElem u) 60 s0
  | .partlyCloudy => genLoop (cloudElem u 0.10) 3 s0
  | .overcast => genLoop (cloudElem u 0.18) 6 s0
  | .fog => genLoop (fogElem u) 6 s0

/-- The seed expression `code * 31 + (0 if is_day else 1000)` of line 91. -/
def seedOf (code : Int) (isDay : Bool) : Int :=
  code * 31 + (if isDay then 0 else 1000)

/-- `get_weather_animation_html(code, is_day)` at the element level:
`U` is the family of unit-interval streams modelling `random.Random`
(one stream per seed); the run uses the stream of seed
`code * 31 + (0 if is_day else 1000)` only. -/
def generateElements (U : Int → Nat → ℚ) (code : Int) (isDay : Bool) :
    List VisualElement × RState :=
  genFrom (U (seedOf code isDay)) code isDay

/-- Per-family element count (the spec's count table, section 4.2);
for rain/thunder the count depends on the code as the table states. -/
def famCount : AnimFamily → Int → Nat
  | .rain, code | .thunder, code => if code ∈ ([65, 82] : List Int) then 55 else 30
  | .snow, _ => 38
  | .clearNight, _ => 60
  | .partlyCloudy, _ => 3
  | .overcast, _ => 6
  | .fog, _ => 6
  | .clearDay, _ => 0

/-- The fixed per-element sequence of generator requests of each randomized
family, as the spec describes it: position first, then size/height, then
delay, then duration, then opacity, then glyph — each present attribute in
that order.  `clearDay` makes no draws. -/
def perElemDraws : AnimFamily → List Draw
  | .rain | .thunder =>
    [.dRandint 0 100, .dRandint 12 28, .dUniform 0 3,
     .dUniform 0.55 1.3, .dUniform 0.35 0.65]
  | .snow =>
    [.dRandint 0 100, .dUniform 0.7 1.7, .dUniform 0 12,
     .dUniform 7 16, .dUniform 0.45 0.8, .dChoice 5]
  | .clearNight =>
    [.dRandint 2 65, .dRandint 0 100, .dUniform 0.18 0.45,
     .dUniform 0 6, .dUniform 2 5]
  | .partlyCloudy | .overcast =>
    [.dRandint 3 40, .dRandint 120 220, .dRandint 0 20, .dRandint 30 60]
  | .fog =>
    [.dRandint 5 85, .dRandint 50 120, .dRandint 0 25, .dRandint 18 35,
     .dUniform 0.05 0.12]
  | .clearDay => []

/-- The draw plan the spec predicts for a whole run: the per-element request
block, repeated once per element. -/
def drawPlan (fam : AnimFamily) (code : Int) : List Draw :=
  (List.replicate (famCount fam code) (perElemDraws fam)).flatten

/-- `x` lies on the grid of rationals with `nd` decimal places. -/
def onGrid (nd : Nat) (x : ℚ) : Prop := ∃ k : Int, x = (k : ℚ) / 10 ^ nd

/-- The per-attribute range-and-grid contract of one element: integer
attributes lie in their inclusive `randint` bounds, rounded rational
attributes lie on the rounding grid inside their `uniform` bounds, the
snow glyph comes from the fixed glyph list.  The three fixed clear-day
pieces and the thunder flash carry no randomized attribute. -/
def elemOK : VisualElement → Prop
  | .rainDrop left h d dur op =>
    0 ≤ left ∧ left ≤ 100 ∧ 12 ≤ h ∧ h ≤ 28 ∧
    onGrid 2 d ∧ 0 ≤ d ∧ d ≤ 3 ∧
    onGrid 2 dur ∧ 0.55 ≤ dur ∧ dur ≤ 1.3 ∧
    onGrid 2 op ∧ 0.35 ≤ op ∧ op ≤ 0.65
  | .flash => True
  | .snowflake left size d dur op ch =>
    0 ≤ left ∧ left ≤ 100 ∧
    onGrid 1 size ∧ 0.7 ≤ size ∧ size ≤ 1.7 ∧
    onGrid 2 d ∧ 0 ≤ d ∧ d ≤ 12 ∧
    onGrid 2 dur ∧ 7 ≤ dur ∧ dur ≤ 16 ∧
    onGrid 2 op ∧ 0.45 ≤ op ∧ op ≤ 0.8 ∧
    ch ∈ snowGlyphs
  | .sunGlow | .rayCW | .rayCCW => True
  | .star top left size d dur =>
    2 ≤ top ∧ top ≤ 65 ∧ 0 ≤ left ∧ left ≤ 100 ∧
    onGrid 2 size ∧ 0.18 ≤ size ∧ size ≤ 0.45 ∧
    onGrid 2 d ∧ 0 ≤ d ∧ d ≤ 6 ∧
    onGrid 2 dur ∧ 2 ≤ dur ∧ dur ≤ 5
  | .cloud top w d dur _ =>
    3 ≤ top ∧ top ≤ 40 ∧ 120 ≤ w ∧ w ≤ 220 ∧
    0 ≤ d ∧ d ≤ 20 ∧ 30 ≤ dur ∧ dur ≤ 60
  | .fogBank top h d dur op =>
    5 ≤ top ∧ top ≤ 85 ∧ 50 ≤ h ∧ h ≤ 120 ∧
    0 ≤ d ∧ d ≤ 25 ∧ 18 ≤ dur ∧ dur ≤ 35 ∧
    onGrid 2 op ∧ 0.05 ≤ op ∧ op ≤ 0.12

/-- Counts the rain `<div>`s of an element list. -/
def rainCount (es : List VisualElement) : Nat :=
  (es.filter fun e => match e with | .rainDrop _ _ _ _ _ => true | _ => false).length

/-- Counts the thunder flash overlays of an element list. -/
def flashCount (es : List VisualElement) : Nat :=
  (es.filter fun e => match e with | .flash => true | _ => false).length

/-- A geocoding place record (the fields `location_label` reads); Python's
`loc.get("admin1")` is `none` when the key is absent, and a present empty
string is falsy, which the labelling must respect. -/
structure Location where
  name : String
  admin1 : Option String
  country : String
  deriving DecidableEq, Repr

/-- `location_label(loc)`: `", ".join([name] (+ [admin1] if truthy) + [country])`. -/
def locationLabel (loc : Location) : String :=
  String.intercalate ", "
    ([loc.name] ++
      (match loc.admin1 with
       | some a => if a = "" then [] else [a]
       | none => []) ++
      [loc.country])

/-- Python's `str.strip()` on a character list: drop whitespace from both
ends. -/
def pyStrip (q : List Char) : List Char :=
  ((q.dropWhile Char.isWhitespace).reverse.dropWhile Char.isWhitespace).reverse

/-- `search_cities(query)`: the geocoding collaborator `gc` (the cached
`geocode` wrapper around the HTTP call) is abstracted as a fallible
function; `Except.error` is Python's raised exception, absorbed by the
`try`/`except` into an empty result.  Short queries return before `gc` is
consulted. -/
def searchCities (gc : List Char → Except Unit (List Location))
    (query : List Char) : List (String × Location) :=
  if query = [] ∨ (pyStrip query).length < 2 then []
  else
    match gc (pyStrip query) with
    | .ok results => results.map fun loc => (locationLabel loc, loc)
    | .error _ => []

/-- Non-whitespace character count of a query. -/
def nonWsCount (q : List Char) : Nat :=
  (q.filter fun c => !c.isWhitespace).length

/-- The forecast-card precipitation badge (lines 416–419): `prob` is the
day's `precipitation_probability_max` (`none` when the API sends `null`,
turned into `0` by `or 0`); the badge `<div>` is produced only above the
10 % threshold. -/
def rainHtml (prob : Option Int) : String :=
  let p := prob.getD 0
  if p > 10 then
    "<div class=\"fc-rain\">💧 " ++ toString p ++ "%</div>"
  else ""

/-! ### Helper lemmas about `pyRound` and `roundTo` -/

theorem floor_le_pyRound (q : ℚ) : ⌊q⌋ ≤ pyRound q := by
  simp only [pyRound]
  split_ifs <;> omega

theorem le_pyRound {a : Int} {q : ℚ} (h : (a : ℚ) ≤ q) : a ≤ pyRound q :=
  le_trans (Int.le_floor.mpr h) (floor_le_pyRound q)

theorem pyRound_le {b : Int} {q : ℚ} (h : q ≤ (b : ℚ)) : pyRound q ≤ b := by
  simp only [pyRound]
  have hfl : ⌊q⌋ ≤ b := le_trans (Int.floor_le_floor h) (le_of_eq (Int.floor_intCast b))
  have hfq : (⌊q⌋ : ℚ) ≤ q := Int.floor_le q
  split_ifs with h1 h2 h3
  · exact hfl
  all_goals
    have hhalf : (⌊q⌋ : ℚ) + 1/2 ≤ q := by push_cast at *; linarith
    have hlt : (⌊q⌋ : ℚ) < (b : ℚ) := by linarith
    have : ⌊q⌋ < b := by exact_mod_cast hlt
    omega

theorem pyRound_add_sixteen (q : ℚ) : pyRound (q + 16) = pyRound q + 16 := by
  have hf : ⌊q + (16 : ℚ)⌋ = ⌊q⌋ + 16 := by
    have := Int.floor_add_int q (16 : ℤ)
    push_cast at this
    simp only [this]
  simp only [pyRound, hf]
  have hr : q + 16 - ((⌊q⌋ + 16 : ℤ) : ℚ) = q - (⌊q⌋ : ℚ) := by push_cast; ring
  rw [hr]
  have hp : (⌊q⌋ + 16) % 2 = ⌊q⌋ % 2 := by omega
  rw [hp]
  split_ifs <;> omega

theorem roundTo_grid (nd : Nat) (x : ℚ) : onGrid nd (roundTo nd x) :=
  ⟨pyRound (x * 10 ^ nd), rfl⟩

theorem roundTo_lb {nd : Nat} {a : Int} {x : ℚ} (h : (a : ℚ) / 10 ^ nd ≤ x) :
    (a : ℚ) / 10 ^ nd ≤ roundTo nd x := by
  unfold roundTo
  have hpow : (0 : ℚ) < 10 ^ nd := by positivity
  have h1 : (a : ℚ) ≤ x * 10 ^ nd := by
    rw [div_le_iff₀ hpow] at h; exact h
  have h2 : (a : ℚ) ≤ (pyRound (x * 10 ^ nd) : ℚ) := by
    exact_mod_cast le_pyRound h1
  exact div_le_div_of_nonneg_right h2 hpow.le

theorem roundTo_ub {nd : Nat} {b : Int} {x : ℚ} (h : x ≤ (b : ℚ) / 10 ^ nd) :
    roundTo nd x ≤ (b : ℚ) / 10 ^ nd := by
  unfold roundTo
  have hpow : (0 : ℚ) < 10 ^ nd := by positivity
  have h1 : x * 10 ^ nd ≤ (b : ℚ) := by
    rw [le_div_iff₀ hpow] at h; exact h
  have h2 : ((pyRound (x * 10 ^ nd) : ℤ) : ℚ) ≤ (b : ℚ) := by
    exact_mod_cast pyRound_le h1
  exact div_le_div_of_nonneg_right h2 hpow.le

/-! ### Helper lemmas about single draws -/

theorem pyRandint_fst_bounds (u : Nat → ℚ) (hu : ∀ n, 0 ≤ u n ∧ u n < 1)
    (lo hi : Int) (h : lo ≤ hi) (s : RState) :
    lo ≤ (pyRandint u lo hi s).1 ∧ (pyRandint u lo hi s).1 ≤ hi := by
  obtain ⟨hx0, hx1⟩ := hu s.idx
  simp only [pyRandint, drawUnit]
  constructor
  · have : (0 : ℤ) ≤ ⌊u s.idx * ((hi : ℚ) - (lo : ℚ) + 1)⌋ := by
      apply Int.floor_nonneg.mpr
      apply mul_nonneg hx0
      have : (lo : ℚ) ≤ (hi : ℚ) := by exact_mod_cast h
      linarith
    omega
  · have hm : (0 : ℚ) < (hi : ℚ) - (lo : ℚ) + 1 := by
      have : (lo : ℚ) ≤ (hi : ℚ) := by exact_mod_cast h
      linarith
    have : ⌊u s.idx * ((hi : ℚ) - (lo : ℚ) + 1)⌋ < hi - lo + 1 := by
      apply Int.floor_lt.mpr
      push_cast
      nlinarith
    omega

theorem pyUniform_fst_bounds (u : Nat → ℚ) (hu : ∀ n, 0 ≤ u n ∧ u n < 1)
    (lo hi : ℚ) (h : lo ≤ hi) (s : RState) :
    lo ≤ (pyUniform u lo hi s).1 ∧ (pyUniform u lo hi s).1 ≤ hi := by
  obtain ⟨hx0, hx1⟩ := hu s.idx
  simp only [pyUniform, drawUnit]
  constructor
  · nlinarith
  · nlinarith

theorem pyChoice_fst_mem (u : Nat → ℚ) (hu : ∀ n, 0 ≤ u n ∧ u n < 1)
    (xs : List String) (h : xs ≠ []) (s : RState) :
    (pyChoice u xs s).1 ∈ xs := by
  obtain ⟨hx0, hx1⟩ := hu s.idx
  simp only [pyChoice, drawUnit]
  have hlen : 0 < xs.length := List.length_pos.mpr h
  have hnn : (0 : ℤ) ≤ ⌊u s.idx * (xs.length : ℚ)⌋ :=
    Int.floor_nonneg.mpr (mul_nonneg hx0 (by positivity))
  have hlt : ⌊u s.idx * (xs.length : ℚ)⌋ < (xs.length : ℤ) := by
    apply Int.floor_lt.mpr
    have : (0 : ℚ) < (xs.length : ℚ) := by exact_mod_cast hlen
    push_cast
    nlinarith
  have hnat : (⌊u s.idx * (xs.length : ℚ)⌋).toNat < xs.length := by omega
  rw [List.getD_eq_getElem _ _ hnat]
  exact List.getElem_mem hnat

/-! ### Per-generator lemmas -/

theorem uniformRound_ok (u : Nat → ℚ) (hu : ∀ n, 0 ≤ u n ∧ u n < 1)
    (nd : Nat) (a b : Int) (lo hi : ℚ)
    (ha : (a : ℚ) / 10 ^ nd = lo) (hb : (b : ℚ) / 10 ^ nd = hi)
    (h : lo ≤ hi) (s : RState) :
    onGrid nd (roundTo nd (pyUniform u lo hi s).1) ∧
    lo ≤ roundTo nd (pyUniform u lo hi s).1 ∧
    roundTo nd (pyUniform u lo hi s).1 ≤ hi := by
  obtain ⟨h1, h2⟩ := pyUniform_fst_bounds u hu lo hi h s
  refine ⟨roundTo_grid nd _, ?_, ?_⟩
  · have := @roundTo_lb nd a (pyUniform u lo hi s).1 (by rw [ha]; exact h1)
    rwa [ha] at this
  · have := @roundTo_ub nd b (pyUniform u lo hi s).1 (by rw [hb]; exact h2)
    rwa [hb] at this

theorem rainElem_ok (u : Nat → ℚ) (hu : ∀ n, 0 ≤ u n ∧ u n < 1) (s : RState) :
    elemOK (rainElem u s).1 := by
  simp only [rainElem, elemOK]
  have A := pyRandint_fst_bounds u hu 0 100 (by decide) s
  have B := pyRandint_fst_bounds u hu 12 28 (by decide) (pyRandint u 0 100 s).2
  exact ⟨A.1, A.2, B.1, B.2,
    uniformRound_ok u hu 2 0 300 0 3 (by norm_num) (by norm_num) (by norm_num) _ |>.1,
    uniformRound_ok u hu 2 0 300 0 3 (by norm_num) (by norm_num) (by norm_num) _ |>.2.1,
    uniformRound_ok u hu 2 0 300 0 3 (by norm_num) (by norm_num) (by norm_num) _ |>.2.2,
    uniformRound_ok u hu 2 55 130 0.55 1.3 (by norm_num) (by norm_num) (by norm_num) _ |>.1,
    uniformRound_ok u hu 2 55 130 0.55 1.3 (by norm_num) (by norm_num) (by norm_num) _ |>.2.1,
    uniformRound_ok u hu 2 55 130 0.55 1.3 (by norm_num) (by norm_num) (by norm_num) _ |>.2.2,
    uniformRound_ok u hu 2 35 65 0.35 0.65 (by norm_num) (by norm_num) (by norm_num) _ |>.1,
    uniformRound_ok u hu 2 35 65 0.35 0.65 (by norm_num) (by norm_num) (by norm_num) _ |>.2.1,
    uniformRound_ok u hu 2 35 65 0.35 0.65 (by norm_num) (by norm_num) (by norm_num) _ |>.2.2⟩

theorem snowElem_ok (u : Nat → ℚ) (hu : ∀ n, 0 ≤ u n ∧ u n < 1) (s : RState) :
    elemOK (snowElem u s).1 := by
  simp only [snowElem, elemOK]
  have A := pyRandint_fst_bounds u hu 0 100 (by decide) s
  exact ⟨A.1, A.2,
    uniformRound_ok u hu 1 7 17 0.7 1.7 (by norm_num) (by norm_num) (by norm_num) _ |>.1,
    uniformRound_ok u hu 1 7 17 0.7 1.7 (by norm_num) (by norm_num) (by norm_num) _ |>.2.1,
    uniformRound_ok u hu 1 7 17 0.7 1.7 (by norm_num) (by norm_num) (by norm_num) _ |>.2.2,
    uniformRound_ok u hu 2 0 1200 0 12 (by norm_num) (by norm_num) (by norm_num) _ |>.1,
    uniformRound_ok u hu 2 0 1200 0 12 (by norm_num) (by norm_num) (by norm_num) _ |>.2.1,
    uniformRound_ok u hu 2 0 1200 0 12 (by norm_num) (by norm_num) (by norm_num) _ |>.2.2,
    uniformRound_ok u hu 2 700 1600 7 16 (by norm_num) (by norm_num) (by norm_num) _ |>.1,
    uniformRound_ok u hu 2 700 1600 7 16 (by norm_num) (by norm_num) (by norm_num) _ |>.2.1,
    uniformRound_ok u hu 2 700 1600 7 16 (by norm_num) (by norm_num) (by norm_num) _ |>.2.2,
    uniformRound_ok u hu 2 45 80 0.45 0.8 (by norm_num) (by norm_num) (by norm_num) _ |>.1,
    uniformRound_ok u hu 2 45 80 0.45 0.8 (by norm_num) (by norm_num) (by norm_num) _ |>.2.1,
    uniformRound_ok u hu 2 45 80 0.45 0.8 (by norm_num) (by norm_num) (by norm_num) _ |>.2.2,
    pyChoice_fst_mem u hu snowGlyphs (by simp [snowGlyphs]) _⟩

theorem starElem_ok (u : Nat → ℚ) (hu : ∀ n, 0 ≤ u n ∧ u n < 1) (s : RState) :
    elemOK (starElem u s).1 := by
  simp only [starElem, elemOK]
  have A := pyRandint_fst_bounds u hu 2 65 (by decide) s
  have B := pyRandint_fst_bounds u hu 0 100 (by decide) (pyRandint u 2 65 s).2
  exact ⟨A.1, A.2, B.1, B.2,
    uniformRound_ok u hu 2 18 45 0.18 0.45 (by norm_num) (by norm_num) (by norm_num) _ |>.1,
    uniformRound_ok u hu 2 18 45 0.18 0.45 (by norm_num) (by norm_num) (by norm_num) _ |>.2.1,
    uniformRound_ok u hu 2 18 45 0.18 0.45 (by norm_num) (by norm_num) (by norm_num) _ |>.2.2,
    uniformRound_ok u hu 2 0 600 0 6 (by norm_num) (by norm_num) (by norm_num) _ |>.1,
    uniformRound_ok u hu 2 0 600 0 6 (by norm_num) (by norm_num) (by norm_num) _ |>.2.1,
    uniformRound_ok u hu 2 0 600 0 6 (by norm_num) (by norm_num) (by norm_num) _ |>.2.2,
    uniformRound_ok u hu 2 200 500 2 5 (by norm_num) (by norm_num) (by norm_num) _ |>.1,
    uniformRound_ok u hu 2 200 500 2 5 (by norm_num) (by norm_num) (by norm_num) _ |>.2.1,
    uniformRound_ok u hu 2 200 500 2 5 (by norm_num) (by norm_num) (by norm_num) _ |>.2.2⟩

theorem cloudElem_ok (u : Nat → ℚ) (hu : ∀ n, 0 ≤ u n ∧ u n < 1) (op : ℚ)
    (s : RState) : elemOK (cloudElem u op s).1 := by
  simp only [cloudElem, elemOK]
  have A := pyRandint_fst_bounds u hu 3 40 (by decide) s
  have B := pyRandint_fst_bounds u hu 120 220 (by decide) (pyRandint u 3 40 s).2
  exact ⟨A.1, A.2, B.1, B.2,
    pyRandint_fst_bounds u hu 0 20 (by decide) _ |>.1,
    pyRandint_fst_bounds u hu 0 20 (by decide) _ |>.2,
    pyRandint_fst_bounds u hu 30 60 (by decide) _ |>.1,
    pyRandint_fst_bounds u hu 30 60 (by decide) _ |>.2⟩

theorem fogElem_ok (u : Nat → ℚ) (hu : ∀ n, 0 ≤ u n ∧ u n < 1) (s : RState) :
    elemOK (fogElem u s).1 := by
  simp only [fogElem, elemOK]
  have A := pyRandint_fst_bounds u hu 5 85 (by decide) s
  have B := pyRandint_fst_bounds u hu 50 120 (by decide) (pyRandint u 5 85 s).2
  exact ⟨A.1, A.2, B.1, B.2,
    pyRandint_fst_bounds u hu 0 25 (by decide) _ |>.1,
    pyRandint_fst_bounds u hu 0 25 (by decide) _ |>.2,
    pyRandint_fst_bounds u hu 18 35 (by decide) _ |>.1,
    pyRandint_fst_bounds u hu 18 35 (by decide) _ |>.2,
    uniformRound_ok u hu 2 5 12 0.05 0.12 (by norm_num) (by norm_num) (by norm_num) _ |>.1,
    uniformRound_ok u hu 2 5 12 0.05 0.12 (by norm_num) (by norm_num) (by norm_num) _ |>.2.1,
    uniformRound_ok u hu 2 5 12 0.05 0.12 (by norm_num) (by norm_num) (by norm_num) _ |>.2.2⟩

theorem rainElem_trace (u : Nat → ℚ) (s : RState) :
    (rainElem u s).2.trace = s.trace ++ perElemDraws .rain := by
  simp [rainElem, pyRandint, pyUniform, drawUnit, perElemDraws]

theorem snowElem_trace (u : Nat → ℚ) (s : RState) :
    (snowElem u s).2.trace = s.trace ++ perElemDraws .snow := by
  simp [snowElem, pyRandint, pyUniform, pyChoice, drawUnit, perElemDraws, snowGlyphs]

theorem starElem_trace (u : Nat → ℚ) (s : RState) :
    (starElem u s).2.trace = s.trace ++ perElemDraws .clearNight := by
  simp [starElem, pyRandint, pyUniform, drawUnit, perElemDraws]

theorem cloudElem_trace (u : Nat → ℚ) (op : ℚ) (s : RState) :
    (cloudElem u op s).2.trace = s.trace ++ perElemDraws .overcast := by
  simp [cloudElem, pyRandint, drawUnit, perElemDraws]

theorem fogElem_trace (u : Nat → ℚ) (s : RState) :
    (fogElem u s).2.trace = s.trace ++ perElemDraws .fog := by
  simp [fogElem, pyRandint, pyUniform, drawUnit, perElemDraws]

/-! ### Loop lemmas -/

theorem genLoop_succ (gen : RState → VisualElement × RState) (n : Nat) (s : RState) :
    genLoop gen (n + 1) s =
      ((gen s).1 :: (genLoop gen n (gen s).2).1, (genLoop gen n (gen s).2).2) := rfl

theorem genLoop_trace {gen : RState → VisualElement × RState} {P : List Draw}
    (hg : ∀ s, (gen s).2.trace = s.trace ++ P) :
    ∀ (n : Nat) (s : RState),
      (genLoop gen n s).2.trace = s.trace ++ (List.replicate n P).flatten := by
  intro n
  induction n with
  | zero => intro s; simp [genLoop]
  | succ n ih =>
    intro s
    rw [genLoop_succ]
    simp only []
    rw [ih (gen s).2, hg s]
    simp [List.replicate_succ, List.append_assoc]

theorem genLoop_mem {gen : RState → VisualElement × RState}
    {P : VisualElement → Prop} (hg : ∀ s, P (gen s).1) :
    ∀ (n : Nat) (s : RState) (e : VisualElement), e ∈ (genLoop gen n s).1 → P e := by
  intro n
  induction n with
  | zero => intro s e he; simp [genLoop] at he
  | succ n ih =>
    intro s e he
    rw [genLoop_succ] at he
    simp only [List.mem_cons] at he
    rcases he with rfl | he
    · exact hg s
    · exact ih (gen s).2 e he

theorem genLoop_count {gen : RState → VisualElement × RState}
    {pred : VisualElement → Bool} (hg : ∀ s, pred (gen s).1 = true) :
    ∀ (n : Nat) (s : RState), ((genLoop gen n s).1.filter pred).length = n := by
  intro n
  induction n with
  | zero => intro s; simp [genLoop]
  | succ n ih =>
    intro s
    rw [genLoop_succ]
    simp [List.filter_cons, hg s, ih (gen s).2]

theorem genLoop_count_zero {gen : RState → VisualElement × RState}
    {pred : VisualElement → Bool} (hg : ∀ s, pred (gen s).1 = false) :
    ∀ (n : Nat) (s : RState), ((genLoop gen n s).1.filter pred).length = 0 := by
  intro n
  induction n with
  | zero => intro s; simp [genLoop]
  | succ n ih =>
    intro s
    rw [genLoop_succ]
    simp [List.filter_cons, hg s]
    intro a ha
    simpa using List.filter_eq_nil_iff.mp (List.length_eq_zero.mp (ih (gen s).2)) a ha

/-! ### Association-list and whitespace helpers -/

theorem lookup_eq_none_of_not_mem_keys {α β : Type} [BEq α] [LawfulBEq α]
    (l : List (α × β)) (a : α) (h : a ∉ l.map Prod.fst) : l.lookup a = none := by
  induction l with
  | nil => rfl
  | cons p t ih =>
    obtain ⟨k, v⟩ := p
    simp only [List.map_cons, List.mem_cons] at h
    push_neg at h
    have hbeq : (a == k) = false := beq_eq_false_iff_ne.mpr h.1
    simp only [List.lookup, hbeq]
    exact ih h.2

theorem dropWhile_append_of_forall {α : Type} {p : α → Bool} :
    ∀ {a : List α}, (∀ x ∈ a, p x) → ∀ b : List α,
      (a ++ b).dropWhile p = b.dropWhile p := by
  intro a
  induction a with
  | nil => intro _ b; rfl
  | cons c t ih =>
    intro h b
    have hc : p c := h c (List.mem_cons_self c t)
    simp only [List.cons_append, List.dropWhile_cons, hc, if_true]
    exact ih (fun x hx => h x (List.mem_cons_of_mem c hx)) b

theorem nonWsCount_dropWhile (l : List Char) :
    nonWsCount (l.dropWhile Char.isWhitespace) = nonWsCount l := by
  induction l with
  | nil => rfl
  | cons c t ih =>
    by_cases hc : c.isWhitespace
    · simp only [List.dropWhile_cons, hc, if_true]
      rw [ih]
      simp [nonWsCount, List.filter_cons, hc]
    · simp [List.dropWhile_cons, hc]

theorem nonWsCount_reverse (l : List Char) : nonWsCount l.reverse = nonWsCount l := by
  simp [nonWsCount, List.filter_reverse]

theorem nonWsCount_pyStrip (l : List Char) : nonWsCount (pyStrip l) = nonWsCount l := by
  unfold pyStrip
  rw [nonWsCount_reverse, nonWsCount_dropWhile, nonWsCount_reverse,
    nonWsCount_dropWhile]

theorem pyStrip_short {q : List Char} (h : nonWsCount q ≤ 1) :
    (pyStrip q).length ≤ 1 := by
  induction q with
  | nil => simp [pyStrip]
  | cons c t ih =>
    by_cases hc : c.isWhitespace
    · have hstep : pyStrip (c :: t) = pyStrip t := by
        simp [pyStrip, List.dropWhile_cons, hc]
      rw [hstep]
      refine ih ?_
      have : nonWsCount (c :: t) = nonWsCount t := by
        simp [nonWsCount, List.filter_cons, hc]
      omega
    · have hcnt : nonWsCount (c :: t) = nonWsCount t + 1 := by
        simp [nonWsCount, List.filter_cons, hc]
      have ht0 : nonWsCount t = 0 := by omega
      have htall : ∀ x ∈ t, x.isWhitespace := by
        intro x hx
        by_contra hxw
        have hmem : x ∈ t.filter (fun c => !c.isWhitespace) :=
          List.mem_filter.mpr ⟨hx, by simpa using hxw⟩
        have : t.filter (fun c => !c.isWhitespace) = [] :=
          List.length_eq_zero.mp ht0
        rw [this] at hmem
        exact List.not_mem_nil x hmem
      have h1 : (c :: t).dropWhile Char.isWhitespace = c :: t := by
        simp [List.dropWhile_cons, hc]
      have h2 : (c :: t).reverse.dropWhile Char.isWhitespace = [c] := by
        rw [List.reverse_cons]
        rw [dropWhile_append_of_forall
          (fun x hx => htall x (List.mem_reverse.mp hx)) [c]]
        simp [List.dropWhile_cons, hc]
      unfold pyStrip
      rw [h1, h2]
      simp

/-! ### Reducing `genFrom` once the family is known -/

theorem genFrom_eq_rain (u : Nat → ℚ) {code : Int} {isDay : Bool}
    (h : classifyFamily code isDay = .rain) :
    genFrom u code isDay =
      genLoop (rainElem u) (if code ∈ ([65, 82] : List Int) then 55 else 30) ⟨0, []⟩ := by
  unfold genFrom; rw [h]

theorem genFrom_eq_thunder (u : Nat → ℚ) {code : Int} {isDay : Bool}
    (h : classifyFamily code isDay = .thunder) :
    genFrom u code isDay =
      ((genLoop (rainElem u) (if code ∈ ([65, 82] : List Int) then 55 else 30) ⟨0, []⟩).1
          ++ [.flash],
        (genLoop (rainElem u) (if code ∈ ([65, 82] : List Int) then 55 else 30) ⟨0, []⟩).2) := by
  unfold genFrom; rw [h]

theorem genFrom_eq_snow (u : Nat → ℚ) {code : Int} {isDay : Bool}
    (h : classifyFamily code isDay = .snow) :
    genFrom u code isDay = genLoop (snowElem u) 38 ⟨0, []⟩ := by
  unfold genFrom; rw [h]

theorem genFrom_eq_clearDay (u : Nat → ℚ) {code : Int} {isDay : Bool}
    (h : classifyFamily code isDay = .clearDay) :
    genFrom u code isDay = ([.sunGlow, .rayCW, .rayCCW], ⟨0, []⟩) := by
  unfold genFrom; rw [h]

theorem genFrom_eq_clearNight (u : Nat → ℚ) {code : Int} {isDay : Bool}
    (h : classifyFamily code isDay = .clearNight) :
    genFrom u code isDay = genLoop (starElem u) 60 ⟨0, []⟩ := by
  unfold genFrom; rw [h]

theorem genFrom_eq_partlyCloudy (u : Nat → ℚ) {code : Int} {isDay : Bool}
    (h : classifyFamily code isDay = .partlyCloudy) :
    genFrom u code isDay = genLoop (cloudElem u 0.10) 3 ⟨0, []⟩ := by
  unfold genFrom; rw [h]

theorem genFrom_eq_overcast (u : Nat → ℚ) {code : Int} {isDay : Bool}
    (h : classifyFamily code isDay = .overcast) :
    genFrom u code isDay = genLoop (cloudElem u 0.18) 6 ⟨0, []⟩ := by
  unfold genFrom; rw [h]

theorem genFrom_eq_fog (u : Nat → ℚ) {code : Int} {isDay : Bool}
    (h : classifyFamily code isDay = .fog) :
    genFrom u code isDay = genLoop (fogElem u) 6 ⟨0, []⟩ := by
  unfold genFrom; rw [h]

theorem classify_rain {code : Int}
    (h : code ∈ ([51, 53, 55, 61, 63, 65, 80, 81, 82] : List Int)) (isDay : Bool) :
    classifyFamily code isDay = .rain := by
  fin_cases h <;> rfl

theorem rainCount_genLoop_rain (u : Nat → ℚ) (n : Nat) (s : RState) :
    rainCount (genLoop (rainElem u) n s).1 = n :=
  genLoop_count (fun _ => rfl) n s

theorem flashCount_genLoop_rain (u : Nat → ℚ) (n : Nat) (s : RState) :
    flashCount (genLoop (rainElem u) n s).1 = 0 :=
  genLoop_count_zero (fun _ => rfl) n s

/-! ### Claim theorems -/

/-- C1: `get_weather_animation_html`'s element generation is deterministic
per input: the pseudo-random source is consulted only through the stream
seeded from `code * 31 + (0 if is_day else 1000)`, so any two generator
families agreeing on that one stream — in particular any two calls with
identical `(code, is_day)` — produce identical element sequences (same
count, same attribute values, same order, as list equality). -/
theorem generate_elements_deterministic :
    ∀ (U V : Int → Nat → ℚ) (code : Int) (isDay : Bool),
      (∀ n, U (code * 31 + (if isDay then 0 else 1000)) n
          = V (code * 31 + (if isDay then 0 else 1000)) n) →
      generateElements U code isDay = generateElements V code isDay := by
  intro U V code isDay h
  unfold generateElements seedOf
  rw [funext h]

/-- Witness for C1 at `(code, is_day) = (61, true)`: two stream families
that agree on the seed `61 * 31` (but differ everywhere else) generate the
same elements. -/
theorem generate_elements_deterministic_witness :
    generateElements (fun _ _ => 0) 61 true =
      generateElements (fun sd _ => if sd = 61 * 31 then 0 else 1) 61 true :=
  generate_elements_deterministic _ _ 61 true (fun _ => by norm_num)

/-- C2: the `anim` selection follows the fixed priority order with first
match winning — it coincides with the spec's rule table everywhere, and in
particular maps 95 to thunder, 0 to clear-day/clear-night by the day flag,
and 3 to overcast for either flag. -/
theorem classify_family_matches_spec :
    (∀ (code : Int) (isDay : Bool),
      classifyFamily code isDay = classifyFamilySpec code isDay) ∧
    classifyFamily 95 true = .thunder ∧
    classifyFamily 0 true = .clearDay ∧
    classifyFamily 0 false = .clearNight ∧
    ∀ b : Bool, classifyFamily 3 b = .overcast :=
  ⟨fun _ _ => rfl, rfl, rfl, rfl, fun _ => rfl⟩

/-- C3 counterexample: the claim's "fixed table of 23 known codes" is
wrong — `WMO_CODES` has 24 entries (codes 96 and 99 share a label/icon
pair, which is presumably how 23 was miscounted). -/
theorem wmo_table_size_cex : ¬ WMO_CODES.length = 23 := by decide

/-- C3 (amended: the table has 24 known codes, not 23): `resolve_condition`
is total — it returns the table pair for every listed code and exactly
`("Unknown", "❓")` for every integer not in the table. -/
theorem resolve_condition_total :
    WMO_CODES.length = 24 ∧
    (∀ code : Int, code ∉ WMO_CODES.map Prod.fst →
      resolveCondition code = ("Unknown", "❓")) ∧
    ∀ (code : Int) (p : String × String),
      (code, p) ∈ WMO_CODES → resolveCondition code = p := by
  refine ⟨rfl, ?_, ?_⟩
  · intro code h
    rw [resolveCondition, lookup_eq_none_of_not_mem_keys _ _ h]
    rfl
  · intro code p h
    fin_cases h <;> rfl

/-- Witness for C3 at codes 7 (unknown) and 95 (known). -/
theorem resolve_condition_total_witness :
    resolveCondition 7 = ("Unknown", "❓") ∧
    resolveCondition 95 = ("Thunderstorm", "⛈️") :=
  ⟨resolve_condition_total.2.1 7 (by decide),
   resolve_condition_total.2.2 95 ("Thunderstorm", "⛈️") (by decide)⟩

/-- C6: `wind_dir_label` is total over every rational degrees input,
negative or beyond 360 included: the index `round(degrees/22.5) mod 16`
always lies within the 16-entry compass table, so the result is always one
of the 16 valid labels. -/
theorem wind_dir_label_total :
    WIND_DIRS.length = 16 ∧
    ∀ d : ℚ,
      (0 ≤ pyRound (d / 22.5) % 16 ∧ pyRound (d / 22.5) % 16 < 16) ∧
      windDirLabel d ∈ WIND_DIRS := by
  refine ⟨rfl, fun d => ?_⟩
  have h0 : 0 ≤ pyRound (d / 22.5) % 16 := Int.emod_nonneg _ (by norm_num)
  have h1 : pyRound (d / 22.5) % 16 < 16 := Int.emod_lt_of_pos _ (by norm_num)
  refine ⟨⟨h0, h1⟩, ?_⟩
  have hlen : WIND_DIRS.length = 16 := rfl
  have hn : (pyRound (d / 22.5) % 16).toNat < WIND_DIRS.length := by omega
  rw [windDirLabel, List.getD_eq_getElem _ _ hn]
  exact List.getElem_mem hn

/-- C7: `wind_dir_label` is periodic with period 360, and hits the four
cardinal labels at the cardinal bearings. -/
theorem wind_dir_label_periodic :
    (∀ d : ℚ, windDirLabel (d + 360) = windDirLabel d) ∧
    windDirLabel 0 = "N" ∧ windDirLabel 90 = "E" ∧
    windDirLabel 180 = "S" ∧ windDirLabel 270 = "W" := by
  have heval : ∀ (d : ℚ) (k : Int) (lbl : String), d / 22.5 = (k : ℚ) →
      WIND_DIRS.getD ((k % 16).toNat) "" = lbl → windDirLabel d = lbl := by
    intro d k lbl hk hl
    rw [windDirLabel, hk]
    have : pyRound (k : ℚ) = k := by
      simp only [pyRound, Int.floor_intCast, sub_self]
      norm_num
    rw [this, hl]
  refine ⟨fun d => ?_,
    heval 0 0 "N" (by norm_num) rfl,
    heval 90 4 "E" (by norm_num) rfl,
    heval 180 8 "S" (by norm_num) rfl,
    heval 270 12 "W" (by norm_num) rfl⟩
  unfold windDirLabel
  have hdiv : (d + 360) / 22.5 = d / 22.5 + 16 := by
    rw [add_div]; norm_num
  rw [hdiv, pyRound_add_sixteen]
  have hmod : (pyRound (d / 22.5) + 16) % 16 = pyRound (d / 22.5) % 16 := by omega
  rw [hmod]

/-- C9: the forecast precipitation badge is emitted iff the day's maximum
precipitation probability exceeds 10 %: above 10 the badge `<div>` is
produced, at or below 10 it is dropped, and a missing (`None`) probability
is treated as 0 and therefore dropped. -/
theorem rain_badge_threshold :
    ∀ prob : Option Int,
      (10 < prob.getD 0 →
        rainHtml prob =
          "<div class=\"fc-rain\">💧 " ++ toString (prob.getD 0) ++ "%</div>") ∧
      (prob.getD 0 ≤ 10 → rainHtml prob = "") ∧
      rainHtml none = "" := by
  intro prob
  refine ⟨fun h => ?_, fun h => ?_, rfl⟩
  · simp only [rainHtml]
    rw [if_pos h]
  · simp only [rainHtml]
    rw [if_neg (by omega)]

/-- Witness for C9 at probabilities 55 (badge emitted) and 10 (dropped). -/
theorem rain_badge_threshold_witness :
    rainHtml (some 55) = "<div class=\"fc-rain\">💧 55%</div>" ∧
    rainHtml (some 10) = "" := by
  constructor
  · rw [(rain_badge_threshold (some 55)).1 (by decide)]
    rfl
  · exact (rain_badge_threshold (some 10)).2.1 (by decide)

/-- C4: for every rain-family code the generator emits exactly 30 rain
elements, except exactly 55 when the code is 65 or 82, and never a thunder
flash overlay (rain-family codes — 82 included — classify as rain, not
thunder, under the priority order). -/
theorem rain_count_exact :
    ∀ (U : Int → Nat → ℚ) (code : Int) (isDay : Bool),
      code ∈ ([51, 53, 55, 61, 63, 65, 80, 81, 82] : List Int) →
      rainCount (generateElements U code isDay).1 =
        (if code = 65 ∨ code = 82 then 55 else 30) ∧
      flashCount (generateElements U code isDay).1 = 0 := by
  intro U code isDay h
  have hfam := classify_rain h isDay
  unfold generateElements
  rw [genFrom_eq_rain _ hfam]
  refine ⟨?_, flashCount_genLoop_rain _ _ _⟩
  rw [rainCount_genLoop_rain]
  simp [List.mem_cons]

/-- Witness for C4 at `generate_elements(82, True)`: exactly 55 rain
elements and no flash. -/
theorem rain_count_exact_witness :
    rainCount (generateElements (fun _ _ => 0) 82 true).1 = 55 ∧
    flashCount (generateElements (fun _ _ => 0) 82 true).1 = 0 := by
  have h := rain_count_exact (fun _ _ => 0) 82 true (by decide)
  simpa using h

/-- C5: in every animation family the generator requests its random values
from the single seeded stream in a fixed per-element order — the request
trace of a whole run is exactly the family's per-element block
(`perElemDraws`, listing position, then size/height, then delay, then
duration, then opacity, then glyph, for the attributes the family draws)
repeated once per element. -/
theorem draw_order_fixed :
    ∀ (U : Int → Nat → ℚ) (code : Int) (isDay : Bool),
      (generateElements U code isDay).2.trace =
        drawPlan (classifyFamily code isDay) code := by
  intro U code isDay
  unfold generateElements
  rcases hfam : classifyFamily code isDay
  · rw [genFrom_eq_thunder _ hfam]
    rw [genLoop_trace (rainElem_trace _) _ _]
    have hpe : perElemDraws .rain = perElemDraws .thunder := rfl
    simp [drawPlan, famCount, hpe]
  · rw [genFrom_eq_snow _ hfam, genLoop_trace (snowElem_trace _) _ _]
    simp [drawPlan, famCount]
  · rw [genFrom_eq_rain _ hfam, genLoop_trace (rainElem_trace _) _ _]
    simp [drawPlan, famCount]
  · rw [genFrom_eq_fog _ hfam, genLoop_trace (fogElem_trace _) _ _]
    simp [drawPlan, famCount]
  · rw [genFrom_eq_overcast _ hfam, genLoop_trace (cloudElem_trace _ _) _ _]
    simp [drawPlan, famCount]
  · rw [genFrom_eq_partlyCloudy _ hfam, genLoop_trace (cloudElem_trace _ _) _ _]
    simp [drawPlan, famCount, perElemDraws]
  · rw [genFrom_eq_clearDay _ hfam]
    simp [drawPlan, famCount]
  · rw [genFrom_eq_clearNight _ hfam, genLoop_trace (starElem_trace _) _ _]
    simp [drawPlan, famCount]

/-- C10: every randomized attribute of every emitted element lies on a
discrete grid inside its stated range — `randint`-drawn attributes are
integers within their inclusive bounds, and every `uniform` draw is rounded
before emission (snow size to 1 decimal place, all other float delays,
durations, opacities and star sizes to 2 decimal places), staying within
its range; the snow glyph comes from the fixed glyph list. -/
theorem attrs_on_grid :
    ∀ (U : Int → Nat → ℚ) (code : Int) (isDay : Bool),
      (∀ n, 0 ≤ U (seedOf code isDay) n ∧ U (seedOf code isDay) n < 1) →
      List.Forall elemOK (generateElements U code isDay).1 := by
  intro U code isDay hu
  rw [List.forall_iff_forall_mem]
  intro e he
  unfold generateElements at he
  rcases hfam : classifyFamily code isDay
  · rw [genFrom_eq_thunder _ hfam] at he
    rcases List.mem_append.mp he with h1 | h2
    · exact genLoop_mem (rainElem_ok _ hu) _ _ e h1
    · simp only [List.mem_singleton] at h2
      subst h2; trivial
  · rw [genFrom_eq_snow _ hfam] at he
    exact genLoop_mem (snowElem_ok _ hu) _ _ e he
  · rw [genFrom_eq_rain _ hfam] at he
    exact genLoop_mem (rainElem_ok _ hu) _ _ e he
  · rw [genFrom_eq_fog _ hfam] at he
    exact genLoop_mem (fogElem_ok _ hu) _ _ e he
  · rw [genFrom_eq_overcast _ hfam] at he
    exact genLoop_mem (cloudElem_ok _ hu 0.18) _ _ e he
  · rw [genFrom_eq_partlyCloudy _ hfam] at he
    exact genLoop_mem (cloudElem_ok _ hu 0.10) _ _ e he
  · rw [genFrom_eq_clearDay _ hfam] at he
    simp only [List.mem_cons, List.not_mem_nil, or_false] at he
    rcases he with rfl | rfl | rfl <;> trivial
  · rw [genFrom_eq_clearNight _ hfam] at he
    exact genLoop_mem (starElem_ok _ hu) _ _ e he

/-- Witness for C10 at `(61, true)` with the constant-zero stream. -/
theorem attrs_on_grid_witness :
    List.Forall elemOK (generateElements (fun _ _ => 0) 61 true).1 :=
  attrs_on_grid (fun _ _ => 0) 61 true (fun _ => by norm_num)

/-- C8: `search_cities` never propagates a geocoding failure: a query with
fewer than 2 non-whitespace characters (the empty query included) yields
`[]` without consulting the geocoding collaborator at all (the result is
the same for every collaborator), any exception from the collaborator is
absorbed into `[]`, and on success each geocode result becomes one
`(label, location)` pair labelled by `location_label`. -/
theorem search_cities_absorbs_failures :
    ∀ (gc : List Char → Except Unit (List Location)) (q : List Char),
      (nonWsCount q < 2 →
        searchCities gc q = [] ∧
        ∀ gc' : List Char → Except Unit (List Location), searchCities gc' q = []) ∧
      (2 ≤ nonWsCount q →
        (∀ e : Unit, gc (pyStrip q) = .error e → searchCities gc q = []) ∧
        (∀ rs : List Location, gc (pyStrip q) = .ok rs →
          searchCities gc q = rs.map fun loc => (locationLabel loc, loc))) := by
  intro gc q
  constructor
  · intro h
    have hshort : (pyStrip q).length < 2 := by
      have := @pyStrip_short q (by omega)
      omega
    have hcond : q = [] ∨ (pyStrip q).length < 2 := Or.inr hshort
    exact ⟨by rw [searchCities, if_pos hcond],
      fun gc' => by rw [searchCities, if_pos hcond]⟩
  · intro h
    have hne : q ≠ [] := by
      intro hq
      rw [hq] at h
      simp [nonWsCount] at h
    have hlen : ¬ (pyStrip q).length < 2 := by
      intro hlt
      have h1 := nonWsCount_pyStrip q
      have h2 : nonWsCount (pyStrip q) ≤ (pyStrip q).length :=
        List.length_filter_le _ _
      omega
    have hcond : ¬ (q = [] ∨ (pyStrip q).length < 2) := by
      push_neg
      exact ⟨hne, by omega⟩
    constructor
    · intro e herr
      rw [searchCities, if_neg hcond, herr]
    · intro rs hok
      rw [searchCities, if_neg hcond, hok]

/-- Witness for C8: a failing collaborator on `"Pa"` yields `[]`, a
successful one yields the labelled pair, and a 1-character query yields
`[]` for any collaborator. -/
theorem search_cities_absorbs_failures_witness :
    searchCities (fun _ => .error ()) "Pa".toList = [] ∧
    searchCities (fun _ => .ok [⟨"Paris", none, "France"⟩]) "Pa".toList =
      [("Paris, France", ⟨"Paris", none, "France"⟩)] ∧
    searchCities (fun _ => .ok [⟨"Paris", none, "France"⟩]) " a ".toList = [] := by
  refine ⟨?_, ?_, ?_⟩
  · exact ((search_cities_absorbs_failures _ _).2 (by decide)).1 () rfl
  · rw [((search_cities_absorbs_failures _ _).2 (by decide)).2
      [⟨"Paris", none, "France"⟩] rfl]
    rfl
  · exact ((search_cities_absorbs_failures _ _).1 (by decide)).1

end WeatherApp
